import Mathlib

/-!
Verification development for the huefy-sdk-js resilient transport layer.

The definitions below are a shallow embedding of the repository's three
client implementations and their shared error taxonomy:

  * `src/src/errors.ts`   — the `HuefyError` hierarchy, `createErrorFromResponse`,
    `isRetryableError`, and (second half of the file) the `KernelClient`
    subprocess transport with its retry loop, `isRetryableError` (private),
    `convertError` and `spawnKernelProcess`.
  * `src/src/http.ts`     — the `HttpClient` retry loop (`request`) and the
    per-attempt classification in `makeRequest`'s catch clause.
  * `src/src/grpc-client.ts` — the `GrpcClient` retry loop (`makeGrpcRequest`),
    `isRetryableGrpcError` and `convertGrpcError`.

JavaScript runtime objects are modelled as plain Lean structures: an error's
class (used by `instanceof` tests) is the `name` tag, `undefined` fields are
`Option`, JS numeric config fields are `Int` (delays are `ℚ`, since backoff
multiplies by a float multiplier), and object `details` payloads are an
association list where a later binding shadows an earlier one, matching
object-spread semantics.
-/

namespace Huefy

/-- The runtime class of a constructed error, as `instanceof` sees it.
Each `HuefyError` subclass in `errors.ts` is a direct subclass of the base
class, so `e instanceof C` for a concrete subclass `C` is exactly a tag test. -/
inductive ErrTag where
  | huefy
  | authentication
  | templateNotFound
  | invalidTemplateData
  | invalidRecipient
  | provider
  | rateLimit
  | network
  | timeout
  | validation
deriving DecidableEq

/-- A `details` payload: plain objects are association lists of string values;
`RateLimitError(message, 0)` stores the number `0`, and
`new ProviderError('', '', message)` stores the string `''`. -/
inductive Details where
  | obj : List (String × String) → Details
  | num : Int → Details
  | str : String → Details
deriving DecidableEq

/-- The `HuefyError` shape from `errors.ts`: message, stable `code` string,
optional HTTP-analogous `statusCode` and optional `details`. -/
structure HuefyError where
  name : ErrTag
  message : String
  code : String
  statusCode : Option Int
  details : Option Details
deriving DecidableEq

/-- Association-list lookup where the LAST binding for a key wins, matching
JavaScript object-literal/spread semantics. -/
def detLookup : List (String × String) → String → Option String
  | [], _ => none
  | (k, v) :: rest, key =>
    match detLookup rest key with
    | some r => some r
    | none => if k = key then some v else none

/-- Read a key out of an optional `details` payload (objects only). -/
def detailsGet : Option Details → String → Option String
  | some (Details.obj l), key => detLookup l key
  | _, _ => none

/-- Object spread `{ ...base, ...d }` where `d` may be absent or a
non-object (numbers and strings contribute no string-keyed properties). -/
def spreadInto (base : List (String × String)) (d : Option Details) :
    List (String × String) :=
  match d with
  | some (Details.obj l) => base ++ l
  | _ => base

/-- `new HuefyError(message, code, statusCode, details)`. -/
def huefyErrorNew (message code : String) (statusCode : Option Int)
    (details : Option Details) : HuefyError :=
  ⟨ErrTag.huefy, message, code, statusCode, details⟩

/-- `new AuthenticationError(message, details)`: code `INVALID_API_KEY`, 401. -/
def authenticationError (message : String) (details : Option Details) : HuefyError :=
  ⟨ErrTag.authentication, message, "INVALID_API_KEY", some 401, details⟩

/-- `new TemplateNotFoundError(templateKey, details)`: code `TEMPLATE_NOT_FOUND`,
404, details `{ template_key: templateKey, ...details }`. -/
def templateNotFoundError (templateKey : String) (details : Option Details) : HuefyError :=
  ⟨ErrTag.templateNotFound, "Template \x27" ++ templateKey ++ "\x27 not found",
    "TEMPLATE_NOT_FOUND", some 404,
    some (Details.obj (spreadInto [("template_key", templateKey)] details))⟩

/-- `new InvalidTemplateDataError(message, details)`: code
`INVALID_TEMPLATE_DATA`, 400. -/
def invalidTemplateDataError (message : String) (details : Option Details) : HuefyError :=
  ⟨ErrTag.invalidTemplateData, message, "INVALID_TEMPLATE_DATA", some 400, details⟩

/-- `new InvalidRecipientError(recipient, details)`: code `INVALID_RECIPIENT`,
400, details `{ recipient, ...details }`. -/
def invalidRecipientError (recipient : String) (details : Option Details) : HuefyError :=
  ⟨ErrTag.invalidRecipient, "Invalid recipient email: " ++ recipient,
    "INVALID_RECIPIENT", some 400,
    some (Details.obj (spreadInto [("recipient", recipient)] details))⟩

/-- `new ProviderError(message, details)`: code `PROVIDER_ERROR`, 500. -/
def providerError (message : String) (details : Option Details) : HuefyError :=
  ⟨ErrTag.provider, message, "PROVIDER_ERROR", some 500, details⟩

/-- `new RateLimitError(message, details)`: code `RATE_LIMIT_EXCEEDED`, 429. -/
def rateLimitError (message : String) (details : Option Details) : HuefyError :=
  ⟨ErrTag.rateLimit, message, "RATE_LIMIT_EXCEEDED", some 429, details⟩

/-- `new NetworkError(message, cause)`: code `NETWORK_ERROR`, no statusCode,
details `{ cause: cause?.message }`. -/
def networkError (message : String) (cause : Option String) : HuefyError :=
  ⟨ErrTag.network, message, "NETWORK_ERROR", none,
    some (Details.obj (match cause with
      | some c => [("cause", c)]
      | none => []))⟩

/-- `new TimeoutError(timeout)`: code `TIMEOUT_ERROR`, no statusCode,
details `{ timeout }`. -/
def timeoutError (timeout : Int) : HuefyError :=
  ⟨ErrTag.timeout, "Request timed out after " ++ toString timeout ++ "ms",
    "TIMEOUT_ERROR", none, some (Details.obj [("timeout", toString timeout)])⟩

/-- `new ValidationError(message, details)`: code `VALIDATION_ERROR`, 400. -/
def validationError (message : String) (details : Option Details) : HuefyError :=
  ⟨ErrTag.validation, message, "VALIDATION_ERROR", some 400, details⟩

/-- The spec's closed taxonomy of error kinds (§3 of the data model). -/
inductive Kind where
  | authentication
  | templateNotFound
  | invalidTemplateData
  | invalidRecipient
  | provider
  | rateLimit
  | network
  | timeout
  | validation
  | internal
  | unknown
deriving DecidableEq

/-- The taxonomy kind denoted by a stable error code string: the `ErrorCode`
enum of `types.ts` plus the codes the error classes assign; any other code
string is outside the enumerated taxonomy and reads as `unknown`. -/
def kindOfCode (code : String) : Kind :=
  if code = "INVALID_API_KEY" then Kind.authentication
  else if code = "TEMPLATE_NOT_FOUND" then Kind.templateNotFound
  else if code = "INVALID_TEMPLATE_DATA" then Kind.invalidTemplateData
  else if code = "INVALID_RECIPIENT" then Kind.invalidRecipient
  else if code = "PROVIDER_ERROR" then Kind.provider
  else if code = "RATE_LIMIT_EXCEEDED" then Kind.rateLimit
  else if code = "NETWORK_ERROR" then Kind.network
  else if code = "TIMEOUT_ERROR" then Kind.timeout
  else if code = "VALIDATION_ERROR" then Kind.validation
  else if code = "INTERNAL_ERROR" then Kind.internal
  else Kind.unknown

/-- An error's taxonomy kind, read off its stable code. -/
def kind (e : HuefyError) : Kind :=
  kindOfCode e.code

/-- The `{error, code, details}` shape of a remote error body
(`ErrorResponse` in `types.ts`). -/
structure ErrorResponse where
  error : String
  code : String
  details : Option Details
deriving DecidableEq

/-- `v || 'unknown'` for an optional string: absent or empty falls back. -/
def orUnknownStr (v : Option String) : String :=
  match v with
  | some s => if s = "" then "unknown" else s
  | none => "unknown"

/-- `createErrorFromResponse(data, statusCode)` from `errors.ts`: dispatch on
the remote `code`; unrecognized codes build a base `HuefyError` passing the
remote code and the HTTP status through verbatim. -/
def createErrorFromResponse (data : ErrorResponse) (statusCode : Int) : HuefyError :=
  if data.code = "INVALID_API_KEY" then
    authenticationError data.error data.details
  else if data.code = "TEMPLATE_NOT_FOUND" then
    templateNotFoundError (orUnknownStr (detailsGet data.details "template_key")) data.details
  else if data.code = "INVALID_TEMPLATE_DATA" then
    invalidTemplateDataError data.error data.details
  else if data.code = "INVALID_RECIPIENT" then
    invalidRecipientError (orUnknownStr (detailsGet data.details "recipient")) data.details
  else if data.code = "PROVIDER_ERROR" then
    providerError data.error data.details
  else if data.code = "RATE_LIMIT_EXCEEDED" then
    rateLimitError data.error data.details
  else
    huefyErrorNew data.error data.code (some statusCode) data.details

/-- `isRetryableError(error)` from `errors.ts` (all callers pass values that
already satisfy the `isHuefyError` guard): `NetworkError`/`TimeoutError`
instances retry; a truthy `statusCode ≥ 500` retries; a truthy 4xx
`statusCode` retries exactly when it is 429; everything else does not. -/
def isRetryableError (e : HuefyError) : Bool :=
  if e.name = ErrTag.network ∨ e.name = ErrTag.timeout then true
  else
    match e.statusCode with
    | none => false
    | some s =>
      if s = 0 then false
      else if 500 ≤ s then true
      else if 400 ≤ s ∧ s < 500 then decide (s = 429)
      else false

/-- Whether a list of characters starts with another. -/
def listStartsWith : List Char → List Char → Bool
  | _, [] => true
  | [], _ :: _ => false
  | a :: as, b :: bs => a = b && listStartsWith as bs

/-- Whether a list of characters contains another as a contiguous run. -/
def listContainsRun : List Char → List Char → Bool
  | [], needle => needle.isEmpty
  | hay@(_ :: rest), needle => listStartsWith hay needle || listContainsRun rest needle

/-- JavaScript `hay.includes(needle)`. -/
def strIncludes (hay needle : String) : Bool :=
  listContainsRun hay.toList needle.toList

/-- The `RetryConfig` shape of `types.ts`. All three clients share the default
`{maxAttempts: 3, initialDelay: 1000, backoffMultiplier: 2, maxDelay: 10000}`;
delays are rationals since the multiplier is a JS float. -/
structure RetryConfig where
  maxAttempts : Int
  initialDelay : ℚ
  backoffMultiplier : ℚ
  maxDelay : ℚ
  retryableStatusCodes : List Int
deriving DecidableEq

/-- The back-off delay the loops compute before retrying after `attempt`:
`Math.min(initialDelay * backoffMultiplier ** (attempt - 1), maxDelay)`. -/
def delayFor (cfg : RetryConfig) (attempt : Nat) : ℚ :=
  min (cfg.initialDelay * cfg.backoffMultiplier ^ (attempt - 1)) cfg.maxDelay

deriving instance DecidableEq for Except

/-- Observable outcome of one run of a client's retry loop: the value returned
or the final `lastError` thrown (`none` when the loop body never ran, mirroring
`throw lastError` with `lastError === null`), the number of attempts performed,
and the sequence of back-off delays slept between attempts. -/
structure LoopOut (ε α : Type) where
  result : Except (Option ε) α
  attempts : Nat
  delays : List ℚ
deriving DecidableEq

/-- The common retry loop body shared verbatim by `HttpClient.request`,
`GrpcClient.makeGrpcRequest` and `KernelClient.executeKernelCommand`:

    for (let attempt = 1; attempt <= maxAttempts; attempt++) {
      try { return await attemptOnce(); }
      catch (error) {
        lastError = error;
        if (attempt === maxAttempts) break;
        if (!retryable(error)) break;
        await sleep(min(initialDelay * multiplier ** (attempt - 1), maxDelay));
      }
    }
    throw lastError;

`attempt` is the 1-based attempt number and `remaining` the number of loop
iterations still allowed (`maxAttempts - attempt + 1`); `remaining = 0` is the
loop exiting by its condition. -/
def retryLoopAux {ε α : Type} (f : Nat → Except ε α) (retryable : ε → Bool)
    (cfg : RetryConfig) : Nat → Nat → LoopOut ε α
  | _, 0 => ⟨Except.error none, 0, []⟩
  | attempt, r + 1 =>
    match f attempt with
    | Except.ok v => ⟨Except.ok v, 1, []⟩
    | Except.error e =>
      if r = 0 then ⟨Except.error (some e), 1, []⟩
      else if retryable e then
        let rest := retryLoopAux f retryable cfg (attempt + 1) r
        ⟨rest.result, rest.attempts + 1, delayFor cfg attempt :: rest.delays⟩
      else ⟨Except.error (some e), 1, []⟩

/-- Run the shared retry loop from attempt 1, with `maxAttempts` iterations
allowed (`maxAttempts.toNat`: a non-positive bound means the body never runs). -/
def retryLoop {ε α : Type} (f : Nat → Except ε α) (retryable : ε → Bool)
    (cfg : RetryConfig) : LoopOut ε α :=
  retryLoopAux f retryable cfg 1 cfg.maxAttempts.toNat

/-- `HttpClient.request`: every per-attempt failure is already a classified
`HuefyError` (see `classifyHttpFailure`); the loop consults
`isRetryableError` and finally rethrows `lastError` unconverted. -/
def httpRequest {α : Type} (cfg : RetryConfig) (f : Nat → Except HuefyError α) :
    LoopOut HuefyError α :=
  retryLoop f isRetryableError cfg

/-- A raw gRPC call error: the numeric status code as `@grpc/grpc-js` delivers
it (`none` when `typeof error.code !== 'number'`), plus `details`/`message`. -/
structure GrpcRawError where
  code : Option Int
  message : String
  details : Option String
deriving DecidableEq

/-- `GrpcClient.isRetryableGrpcError`: a numeric status code contained in
`retryConfig.retryableStatusCodes` (default `[14, 13, 8]`). -/
def isRetryableGrpcError (cfg : RetryConfig) (e : GrpcRawError) : Bool :=
  match e.code with
  | some c => cfg.retryableStatusCodes.contains c
  | none => false

/-- `error.details || error.message || 'Unknown gRPC error'`. -/
def grpcErrMessage (e : GrpcRawError) : String :=
  match e.details with
  | some d => if d = "" then (if e.message = "" then "Unknown gRPC error" else e.message) else d
  | none => if e.message = "" then "Unknown gRPC error" else e.message

/-- Render `${code}` for the default branch message. -/
def grpcCodeStr (code : Option Int) : String :=
  match code with
  | some c => toString c
  | none => "undefined"

/-- `GrpcClient.convertGrpcError(error)`: translate a raw gRPC status code to
an SDK error. Status numbers follow `grpc.status`: INVALID_ARGUMENT 3,
DEADLINE_EXCEEDED 4, NOT_FOUND 5, PERMISSION_DENIED 7, RESOURCE_EXHAUSTED 8,
INTERNAL 13, UNAVAILABLE 14, UNAUTHENTICATED 16. -/
def convertGrpcError (timeout : Int) (err : Option GrpcRawError) : HuefyError :=
  match err with
  | none => huefyErrorNew "Unknown error occurred" "UNKNOWN_ERROR" none none
  | some e =>
    let message := grpcErrMessage e
    if e.code = some 3 then validationError message none
    else if e.code = some 16 then authenticationError message none
    else if e.code = some 7 then authenticationError message none
    else if e.code = some 5 then templateNotFoundError message none
    else if e.code = some 8 then rateLimitError message (some (Details.num 0))
    else if e.code = some 14 then providerError "" (some (Details.str ""))
    else if e.code = some 4 then timeoutError timeout
    else if e.code = some 13 then huefyErrorNew message "INTERNAL_ERROR" none none
    else networkError ("gRPC error (" ++ grpcCodeStr e.code ++ "): " ++ message) none

/-- Outcome of a full client call once the final error has been converted to
the SDK taxonomy. -/
structure ExecOut (α : Type) where
  result : Except HuefyError α
  attempts : Nat
  delays : List ℚ
deriving DecidableEq

/-- `GrpcClient.makeGrpcRequest`: the shared retry loop over raw gRPC errors,
with `convertGrpcError` applied to the final `lastError`. -/
def makeGrpcRequest {α : Type} (cfg : RetryConfig) (timeout : Int)
    (f : Nat → Except GrpcRawError α) : ExecOut α :=
  let o := retryLoop f (isRetryableGrpcError cfg) cfg
  match o.result with
  | Except.ok v => ⟨Except.ok v, o.attempts, o.delays⟩
  | Except.error le => ⟨Except.error (convertGrpcError timeout le), o.attempts, o.delays⟩

/-- A rejection out of `KernelClient.spawnKernelProcess`: either a plain
`Error` (spawn failure, non-zero exit, parse failure) or an SDK `HuefyError`
(CLI-reported failure, timeout). `message` is the JS `error.message`. -/
structure KernelRawError where
  asHuefy : Option HuefyError
  message : String
deriving DecidableEq

/-- `error instanceof C` for a kernel rejection value. -/
def kernelInstanceOf (e : KernelRawError) (t : ErrTag) : Bool :=
  match e.asHuefy with
  | some h => decide (h.name = t)
  | none => false

/-- `KernelClient.isRetryableError`: `TimeoutError` or `NetworkError`
instances, or a message containing `'ECONNREFUSED'` or `'timeout'`. -/
def kernelIsRetryableError (e : KernelRawError) : Bool :=
  if kernelInstanceOf e ErrTag.timeout then true
  else if kernelInstanceOf e ErrTag.network then true
  else if strIncludes e.message "ECONNREFUSED" || strIncludes e.message "timeout" then true
  else false

/-- `KernelClient.convertError`: pass `HuefyError`s through; otherwise sniff
the message; otherwise a base `KERNEL_ERROR`. -/
def kernelConvertError (timeout : Int) (err : Option KernelRawError) : HuefyError :=
  match err with
  | none => huefyErrorNew "Unknown error occurred" "UNKNOWN_ERROR" none none
  | some e =>
    match e.asHuefy with
    | some h => h
    | none =>
      let message := if e.message = "" then "Unknown kernel error" else e.message
      if strIncludes message "API key" then authenticationError message none
      else if strIncludes message "template" then templateNotFoundError message none
      else if strIncludes message "rate limit" then rateLimitError message (some (Details.num 0))
      else if strIncludes message "timeout" then timeoutError timeout
      else if strIncludes message "network" || strIncludes message "connection" then
        networkError message none
      else huefyErrorNew message "KERNEL_ERROR" none none

/-- `KernelClient.executeKernelCommand`: the shared retry loop over kernel
rejections, with `convertError` applied to the final `lastError`. -/
def executeKernelCommand {α : Type} (cfg : RetryConfig) (timeout : Int)
    (f : Nat → Except KernelRawError α) : ExecOut α :=
  let o := retryLoop f kernelIsRetryableError cfg
  match o.result with
  | Except.ok v => ⟨Except.ok v, o.attempts, o.delays⟩
  | Except.error le => ⟨Except.error (kernelConvertError timeout le), o.attempts, o.delays⟩

/-- A raw JavaScript failure as `HttpClient.makeRequest`'s catch clause sees
it: its `name`, its `message`, whether it is a `TypeError`, and whether it is
already a (classified) `HuefyError`. -/
structure JsError where
  name : String
  message : String
  isTypeError : Bool
  asHuefy : Option HuefyError
deriving DecidableEq

/-- The catch clause of `HttpClient.makeRequest` (`http.ts`): aborts become
`TimeoutError`; `TypeError`s and fetch-related messages become
`NetworkError`; `HuefyError`s are rethrown as-is; anything else is wrapped as
an `UNEXPECTED_ERROR` base `HuefyError`. Total: never re-raises a raw value. -/
def classifyHttpFailure (timeout : Int) (e : JsError) : HuefyError :=
  if e.name = "AbortError" then timeoutError timeout
  else if e.isTypeError || strIncludes e.message "fetch" then
    networkError ("Network error: " ++ e.message) (some e.message)
  else
    match e.asHuefy with
    | some h => h
    | none => huefyErrorNew ("Unexpected error: " ++ e.message) "UNEXPECTED_ERROR" none none

/-- The embedded error object of a `CLIResponse`. -/
structure CLIErrorInfo where
  code : String
  message : String
deriving DecidableEq

/-- The kernel CLI's one-object stdout protocol:
`{success: bool, data?: object, error?: {code, message}}`. -/
structure CLIResponse where
  success : Bool
  data : Option String
  error : Option CLIErrorInfo
deriving DecidableEq

/-- One child-process run as the single-threaded event loop observes it:
when the `close` event fires (in ms since spawn), the exit code, the
JSON-decoded stdout (`none` when `JSON.parse` fails) and the stderr text. -/
structure ChildBehavior where
  closeTime : Int
  exitCode : Int
  stdoutParsed : Option CLIResponse
  stderr : String
deriving DecidableEq

/-- Outcome of one `spawnKernelProcess` attempt: the settled promise value and
whether `kill()` was issued to the child. -/
structure SpawnOutcome where
  result : Except KernelRawError (Option String)
  killed : Bool
deriving DecidableEq

/-- `response.error?.message || 'Unknown kernel error'`. -/
def cliErrMessage (o : Option CLIErrorInfo) : String :=
  match o with
  | some i => if i.message = "" then "Unknown kernel error" else i.message
  | none => "Unknown kernel error"

/-- `response.error?.code || 'KERNEL_ERROR'`. -/
def cliErrCode (o : Option CLIErrorInfo) : String :=
  match o with
  | some i => if i.code = "" then "KERNEL_ERROR" else i.code
  | none => "KERNEL_ERROR"

/-- `KernelClient.spawnKernelProcess` (`errors.ts`, kernel half): the promise
settles once, to whichever of the `close` handler and the `setTimeout` timer
fires first. A close before `timeout` ms settles from the child's exit code
and accumulated stdout; otherwise the timer fires, `kill()`s the child and
rejects with `TimeoutError(timeout)` — the accumulated stdout is never read. -/
def spawnKernelProcess (timeout : Int) (child : ChildBehavior) : SpawnOutcome :=
  if child.closeTime < timeout then
    if child.exitCode ≠ 0 then
      ⟨Except.error ⟨none,
        "Kernel process exited with code " ++ toString child.exitCode ++ ": " ++ child.stderr⟩,
        false⟩
    else
      match child.stdoutParsed with
      | none => ⟨Except.error ⟨none, "Failed to parse kernel response"⟩, false⟩
      | some r =>
        if r.success = false then
          ⟨Except.error ⟨some (huefyErrorNew (cliErrMessage r.error) (cliErrCode r.error) none none),
            cliErrMessage r.error⟩, false⟩
        else ⟨Except.ok r.data, false⟩
  else
    ⟨Except.error ⟨some (timeoutError timeout),
      "Request timed out after " ++ toString timeout ++ "ms"⟩, true⟩

/-- The `HuefyConfig` shape of `types.ts`; absent optional fields are `none`. -/
structure HuefyConfig where
  apiKey : Option String
  baseUrl : Option String
  timeout : Option Int
  retryAttempts : Option Int
  retryDelay : Option Int
deriving DecidableEq

/-- JavaScript `v || d` for an optional numeric config field: absent or `0`
(falsy) falls back to the default; any other value, negative included, is kept. -/
def orDefaultInt (v : Option Int) (d : Int) : Int :=
  match v with
  | some x => if x = 0 then d else x
  | none => d

/-- `!this.apiKey || typeof this.apiKey !== 'string'`: absent or empty. -/
def apiKeyInvalid (config : HuefyConfig) : Bool :=
  match config.apiKey with
  | some k => decide (k = "")
  | none => true

/-- `DEFAULT_RETRY_CONFIG` of `http.ts`. -/
def DEFAULT_RETRY_CONFIG_HTTP : RetryConfig :=
  ⟨3, 1000, 2, 10000, [429, 500, 502, 503, 504]⟩

/-- `DEFAULT_RETRY_CONFIG` of `grpc-client.ts` and of the kernel client. -/
def DEFAULT_RETRY_CONFIG_GRPC : RetryConfig :=
  ⟨3, 1000, 2, 10000, [14, 13, 8]⟩

/-- `{...DEFAULT_RETRY_CONFIG, maxAttempts: config.retryAttempts || 3,
initialDelay: config.retryDelay || 1000}` as built by `HttpClient`. -/
def httpRetryConfigOf (config : HuefyConfig) : RetryConfig :=
  { DEFAULT_RETRY_CONFIG_HTTP with
    maxAttempts := orDefaultInt config.retryAttempts DEFAULT_RETRY_CONFIG_HTTP.maxAttempts,
    initialDelay := ((orDefaultInt config.retryDelay 1000 : Int) : ℚ) }

/-- The same retry-config merge as built by `GrpcClient` and `KernelClient`. -/
def grpcRetryConfigOf (config : HuefyConfig) : RetryConfig :=
  { DEFAULT_RETRY_CONFIG_GRPC with
    maxAttempts := orDefaultInt config.retryAttempts DEFAULT_RETRY_CONFIG_GRPC.maxAttempts,
    initialDelay := ((orDefaultInt config.retryDelay 1000 : Int) : ℚ) }

/-- `this.timeout = config.timeout || 30000` in all three constructors. -/
def effectiveTimeout (config : HuefyConfig) : Int :=
  orDefaultInt config.timeout 30000

/-- The per-client state the constructors produce that the claims observe. -/
structure ClientState where
  timeout : Int
  retryConfig : RetryConfig
deriving DecidableEq

/-- `HttpClient`'s constructor: assign timeout and retryConfig, then validate
the api key, then reject a negative timeout with an `INVALID_CONFIG` error. -/
def httpClientInit (config : HuefyConfig) : Except HuefyError ClientState :=
  let timeout := effectiveTimeout config
  let rc := httpRetryConfigOf config
  if apiKeyInvalid config then
    Except.error (huefyErrorNew "API key is required and must be a string" "INVALID_CONFIG" none none)
  else if timeout < 0 then
    Except.error (huefyErrorNew "Timeout must be a positive number" "INVALID_CONFIG" none none)
  else Except.ok ⟨timeout, rc⟩

/-- `GrpcClient`'s constructor: same validations, then `initializeGrpcClient`
which may fail (proto loading / channel creation, abstracted by `grpcInitOk`). -/
def grpcClientInit (config : HuefyConfig) (grpcInitOk : Bool) : Except HuefyError ClientState :=
  let timeout := effectiveTimeout config
  let rc := grpcRetryConfigOf config
  if apiKeyInvalid config then
    Except.error (huefyErrorNew "API key is required and must be a string" "INVALID_CONFIG" none none)
  else if timeout < 0 then
    Except.error (huefyErrorNew "Timeout must be a positive number" "INVALID_CONFIG" none none)
  else if grpcInitOk then Except.ok ⟨timeout, rc⟩
  else Except.error (huefyErrorNew "Failed to initialize gRPC client" "GRPC_INIT_ERROR" none none)

/-- `KernelClient`'s constructor: same validations, then `getKernelBinaryPath`,
which throws `UNSUPPORTED_PLATFORM` unless the platform is darwin/linux/win32. -/
def kernelClientInit (config : HuefyConfig) (platform : String) : Except HuefyError ClientState :=
  let timeout := effectiveTimeout config
  let rc := grpcRetryConfigOf config
  if apiKeyInvalid config then
    Except.error (huefyErrorNew "API key is required and must be a string" "INVALID_CONFIG" none none)
  else if timeout < 0 then
    Except.error (huefyErrorNew "Timeout must be a positive number" "INVALID_CONFIG" none none)
  else if platform = "darwin" ∨ platform = "linux" ∨ platform = "win32" then
    Except.ok ⟨timeout, rc⟩
  else
    Except.error (huefyErrorNew ("Unsupported platform: " ++ platform) "UNSUPPORTED_PLATFORM" none none)

/-- Modelled from the spec: the claimed retryable set — `{Network, Timeout}`
unconditionally, plus `RateLimit`, plus any kind whose `statusCode ≥ 500`.
Kept separate from the code's predicates so the two can be compared. -/
def claimedRetryableSet (e : HuefyError) : Bool :=
  decide (kind e = Kind.network ∨ kind e = Kind.timeout ∨ kind e = Kind.rateLimit)
  || (match e.statusCode with
      | some s => decide (500 ≤ s)
      | none => false)

/-- Every stable `code` string the SDK's own classifiers can attach to an
error surfaced to the caller (the `ErrorCode` enum plus the catch-all codes). -/
def enumeratedCodes : List String :=
  ["INVALID_API_KEY", "TEMPLATE_NOT_FOUND", "INVALID_TEMPLATE_DATA",
   "INVALID_RECIPIENT", "PROVIDER_ERROR", "RATE_LIMIT_EXCEEDED",
   "NETWORK_ERROR", "TIMEOUT_ERROR", "VALIDATION_ERROR", "INTERNAL_ERROR",
   "UNKNOWN_ERROR", "UNEXPECTED_ERROR", "KERNEL_ERROR"]

/-- One-step unfolding of the shared loop body. -/
theorem retryLoopAux_step {ε α : Type} (f : Nat → Except ε α) (p : ε → Bool)
    (cfg : RetryConfig) (a r : Nat) :
    retryLoopAux f p cfg a (r + 1) =
      match f a with
      | Except.ok v => ⟨Except.ok v, 1, []⟩
      | Except.error e =>
        if r = 0 then ⟨Except.error (some e), 1, []⟩
        else if p e then
          ⟨(retryLoopAux f p cfg (a + 1) r).result,
            (retryLoopAux f p cfg (a + 1) r).attempts + 1,
            delayFor cfg a :: (retryLoopAux f p cfg (a + 1) r).delays⟩
        else ⟨Except.error (some e), 1, []⟩ := by
  simp only [retryLoopAux]

/-- When every attempt fails and every failure is retryable, the shared loop
runs all of its allowed iterations, surfaces the last attempt's error and
sleeps the formula delay between consecutive attempts. -/
theorem retryLoopAux_allFail {ε α : Type} (f : Nat → Except ε α) (p : ε → Bool)
    (cfg : RetryConfig) (e : Nat → ε)
    (hf : ∀ k, f k = Except.error (e k)) (hp : ∀ k, p (e k) = true) :
    ∀ (r a : Nat),
      retryLoopAux f p cfg a (r + 1) =
        ⟨Except.error (some (e (a + r))), r + 1,
          (List.range r).map (fun i => delayFor cfg (a + i))⟩ := by
  intro r
  induction r with
  | zero =>
    intro a
    rw [retryLoopAux_step, hf a]
    simp
  | succ n ih =>
    intro a
    have hrest := ih (a + 1)
    rw [retryLoopAux_step, hf a]
    simp only [Nat.succ_ne_zero, if_false, hp a, if_true, hrest]
    have h1 : a + 1 + n = a + (n + 1) := by omega
    have h2 : (fun i => delayFor cfg (a + 1 + i)) = (fun i => delayFor cfg (a + (i + 1))) := by
      funext i
      congr 1
      omega
    rw [List.range_succ_eq_map]
    simp only [List.map_cons, List.map_map, Function.comp, Nat.add_zero,
      Nat.succ_eq_add_one, h1, h2]
    have h3 : ((fun i => delayFor cfg (a + i)) ∘ Nat.succ) =
        (fun i => delayFor cfg (a + (i + 1))) := by
      funext i
      rfl
    rw [h3]

/-- Every delay the shared loop ever sleeps is the back-off formula for the
attempt it follows: the delay at position `i` (slept after attempt `a + i`
when the loop starts at attempt `a`) is `delayFor cfg (a + i)` — for any
attempt function, retryability predicate and configuration. -/
theorem retryLoopAux_delay {ε α : Type} (f : Nat → Except ε α) (p : ε → Bool)
    (cfg : RetryConfig) :
    ∀ (r a i : Nat) (h : i < ((retryLoopAux f p cfg a r).delays).length),
      ((retryLoopAux f p cfg a r).delays).get ⟨i, h⟩ = delayFor cfg (a + i) := by
  intro r
  induction r with
  | zero =>
    intro a i h
    simp [retryLoopAux] at h
  | succ n ih =>
    intro a i h
    revert h
    cases hfa : f a with
    | ok v =>
      intro h
      simp [retryLoopAux, hfa] at h
    | error e =>
      by_cases hn : n = 0
      · intro h
        simp [retryLoopAux, hfa, hn] at h
      · by_cases hpe : p e = true
        · have crux : retryLoopAux f p cfg a (n + 1) =
              ⟨(retryLoopAux f p cfg (a + 1) n).result,
                (retryLoopAux f p cfg (a + 1) n).attempts + 1,
                delayFor cfg a :: (retryLoopAux f p cfg (a + 1) n).delays⟩ := by
            simp [retryLoopAux, hfa, hn, hpe]
          rw [crux]
          cases i with
          | zero =>
            intro h
            simp
          | succ i =>
            intro h
            have h' : i < ((retryLoopAux f p cfg (a + 1) n).delays).length :=
              Nat.lt_of_succ_lt_succ (by simpa using h)
            have step : ((delayFor cfg a :: (retryLoopAux f p cfg (a + 1) n).delays).get
                ⟨i + 1, h⟩) = ((retryLoopAux f p cfg (a + 1) n).delays).get ⟨i, h'⟩ := rfl
            rw [step, ih (a + 1) i h']
            congr 1
            omega
        · intro h
          simp [retryLoopAux, hfa, hn, hpe] at h

/-- `makeGrpcRequest` reports the delays of the underlying shared loop. -/
theorem makeGrpcRequest_delays {α : Type} (cfg : RetryConfig) (timeout : Int)
    (f : Nat → Except GrpcRawError α) :
    (makeGrpcRequest cfg timeout f).delays =
      (retryLoop f (isRetryableGrpcError cfg) cfg).delays := by
  cases h : (retryLoop f (isRetryableGrpcError cfg) cfg).result <;>
    simp [makeGrpcRequest, h]

/-- `executeKernelCommand` reports the delays of the underlying shared loop. -/
theorem executeKernelCommand_delays {α : Type} (cfg : RetryConfig) (timeout : Int)
    (f : Nat → Except KernelRawError α) :
    (executeKernelCommand cfg timeout f).delays =
      (retryLoop f kernelIsRetryableError cfg).delays := by
  cases h : (retryLoop f kernelIsRetryableError cfg).result <;>
    simp [executeKernelCommand, h]

/-- Indexing agrees across equal lists. -/
theorem list_get_congr {α : Type} {l l' : List α} (h : l = l') (i : Nat)
    (h1 : i < l.length) (h2 : i < l'.length) : l.get ⟨i, h1⟩ = l'.get ⟨i, h2⟩ := by
  subst h
  rfl

/-- Every delay slept by a full run of the shared loop equals the exact
back-off formula for its position: the `i`-th delay (0-based, slept between
attempts `i + 1` and `i + 2`) is
`min(initialDelay * backoffMultiplier ^ i, maxDelay)`. -/
theorem retryLoop_delay {ε α : Type} (f : Nat → Except ε α) (p : ε → Bool)
    (cfg : RetryConfig) (i : Nat) (h : i < ((retryLoop f p cfg).delays).length) :
    ((retryLoop f p cfg).delays).get ⟨i, h⟩ =
      min (cfg.initialDelay * cfg.backoffMultiplier ^ i) cfg.maxDelay := by
  calc ((retryLoop f p cfg).delays).get ⟨i, h⟩
      = delayFor cfg (1 + i) := retryLoopAux_delay f p cfg cfg.maxAttempts.toNat 1 i h
    _ = min (cfg.initialDelay * cfg.backoffMultiplier ^ i) cfg.maxDelay := by
        simp [delayFor, Nat.add_sub_cancel_left]

/-- C1: for every `maxAttempts = N ≥ 1` and every transport whose attempts all
fail with errors its retryability check accepts, the retry loop of the HTTP,
gRPC and kernel clients performs exactly `N` attempts and then surfaces the
error classified from the `N`-th attempt: the HTTP loop rethrows the `N`-th
(already classified) error itself, and the gRPC/kernel loops rethrow the
`N`-th raw error put through `convertGrpcError` / `convertError`. -/
theorem retryExhaustion {α β γ : Type} (cfg : RetryConfig) (timeout : Int) (N : Nat)
    (hN : 1 ≤ N) (hmax : cfg.maxAttempts = (N : Int))
    (fh : Nat → Except HuefyError α) (eh : Nat → HuefyError)
    (hfh : ∀ k, fh k = Except.error (eh k))
    (hrh : ∀ k, isRetryableError (eh k) = true)
    (fg : Nat → Except GrpcRawError β) (eg : Nat → GrpcRawError)
    (hfg : ∀ k, fg k = Except.error (eg k))
    (hrg : ∀ k, isRetryableGrpcError cfg (eg k) = true)
    (fk : Nat → Except KernelRawError γ) (ek : Nat → KernelRawError)
    (hfk : ∀ k, fk k = Except.error (ek k))
    (hrk : ∀ k, kernelIsRetryableError (ek k) = true) :
    (httpRequest cfg fh).attempts = N
    ∧ (httpRequest cfg fh).result = Except.error (some (eh N))
    ∧ (makeGrpcRequest cfg timeout fg).attempts = N
    ∧ (makeGrpcRequest cfg timeout fg).result
        = Except.error (convertGrpcError timeout (some (eg N)))
    ∧ (executeKernelCommand cfg timeout fk).attempts = N
    ∧ (executeKernelCommand cfg timeout fk).result
        = Except.error (kernelConvertError timeout (some (ek N))) := by
  obtain ⟨r, rfl⟩ : ∃ r, N = r + 1 := ⟨N - 1, by omega⟩
  have htn : cfg.maxAttempts.toNat = r + 1 := by omega
  have hone : 1 + r = r + 1 := Nat.add_comm 1 r
  have hh := retryLoopAux_allFail fh isRetryableError cfg eh hfh hrh r 1
  have hg := retryLoopAux_allFail fg (isRetryableGrpcError cfg) cfg eg hfg hrg r 1
  have hk := retryLoopAux_allFail fk kernelIsRetryableError cfg ek hfk hrk r 1
  rw [hone] at hh hg hk
  have hhl : httpRequest cfg fh =
      ⟨Except.error (some (eh (r + 1))), r + 1,
        (List.range r).map (fun i => delayFor cfg (1 + i))⟩ := by
    unfold httpRequest retryLoop
    rw [htn, hh]
  have hgl : retryLoop fg (isRetryableGrpcError cfg) cfg =
      ⟨Except.error (some (eg (r + 1))), r + 1,
        (List.range r).map (fun i => delayFor cfg (1 + i))⟩ := by
    unfold retryLoop
    rw [htn, hg]
  have hgm : makeGrpcRequest cfg timeout fg =
      ⟨Except.error (convertGrpcError timeout (some (eg (r + 1)))), r + 1,
        (List.range r).map (fun i => delayFor cfg (1 + i))⟩ := by
    simp [makeGrpcRequest, hgl]
  have hkl : retryLoop fk kernelIsRetryableError cfg =
      ⟨Except.error (some (ek (r + 1))), r + 1,
        (List.range r).map (fun i => delayFor cfg (1 + i))⟩ := by
    unfold retryLoop
    rw [htn, hk]
  have hkm : executeKernelCommand cfg timeout fk =
      ⟨Except.error (kernelConvertError timeout (some (ek (r + 1)))), r + 1,
        (List.range r).map (fun i => delayFor cfg (1 + i))⟩ := by
    simp [executeKernelCommand, hkl]
  rw [hhl, hgm, hkm]
  exact ⟨rfl, rfl, rfl, rfl, rfl, rfl⟩

/-- Witness for C1: with `maxAttempts = 2` and transports that always fail
retryably, each client performs exactly 2 attempts and surfaces the
classification of the second failure. -/
theorem retryExhaustionWitness :
    (httpRequest ⟨2, 100, 2, 1000, [14, 13, 8]⟩
        (fun _ => (Except.error (networkError "boom" none) : Except HuefyError Nat))).attempts = 2
    ∧ (httpRequest ⟨2, 100, 2, 1000, [14, 13, 8]⟩
        (fun _ => (Except.error (networkError "boom" none) : Except HuefyError Nat))).result
          = Except.error (some (networkError "boom" none))
    ∧ (makeGrpcRequest ⟨2, 100, 2, 1000, [14, 13, 8]⟩ 500
        (fun _ => (Except.error ⟨some 14, "u", none⟩ : Except GrpcRawError Nat))).attempts = 2
    ∧ (makeGrpcRequest ⟨2, 100, 2, 1000, [14, 13, 8]⟩ 500
        (fun _ => (Except.error ⟨some 14, "u", none⟩ : Except GrpcRawError Nat))).result
          = Except.error (convertGrpcError 500 (some ⟨some 14, "u", none⟩))
    ∧ (executeKernelCommand ⟨2, 100, 2, 1000, [14, 13, 8]⟩ 500
        (fun _ => (Except.error ⟨none, "timeout hit"⟩ : Except KernelRawError Nat))).attempts = 2
    ∧ (executeKernelCommand ⟨2, 100, 2, 1000, [14, 13, 8]⟩ 500
        (fun _ => (Except.error ⟨none, "timeout hit"⟩ : Except KernelRawError Nat))).result
          = Except.error (kernelConvertError 500 (some ⟨none, "timeout hit"⟩)) := by
  refine retryExhaustion ⟨2, 100, 2, 1000, [14, 13, 8]⟩ 500 2 (by omega) rfl
    (fun _ => Except.error (networkError "boom" none)) (fun _ => networkError "boom" none)
    (fun _ => rfl) ?_
    (fun _ => Except.error ⟨some 14, "u", none⟩) (fun _ => ⟨some 14, "u", none⟩)
    (fun _ => rfl) ?_
    (fun _ => Except.error ⟨none, "timeout hit"⟩) (fun _ => ⟨none, "timeout hit"⟩)
    (fun _ => rfl) ?_
  · intro k
    show isRetryableError (networkError "boom" none) = true
    decide
  · intro k
    show isRetryableGrpcError ⟨2, 100, 2, 1000, [14, 13, 8]⟩ ⟨some 14, "u", none⟩ = true
    decide
  · intro k
    show kernelIsRetryableError ⟨none, "timeout hit"⟩ = true
    decide

/-- C2: in every transport's retry loop, the back-off delay slept between
attempt `k` and attempt `k + 1` (position `i = k - 1` in the delay trace) is
exactly `min(initialDelay * backoffMultiplier ^ (k - 1), maxDelay)` — a pure
function of the attempt number, with no jitter, whatever the attempt outcomes
and retryability predicate. -/
theorem backoffDelayFormula {α β γ : Type} (cfg : RetryConfig) (timeout : Int)
    (fh : Nat → Except HuefyError α) (fg : Nat → Except GrpcRawError β)
    (fk : Nat → Except KernelRawError γ) (i : Nat)
    (hh : i < ((httpRequest cfg fh).delays).length)
    (hg : i < ((makeGrpcRequest cfg timeout fg).delays).length)
    (hk : i < ((executeKernelCommand cfg timeout fk).delays).length) :
    ((httpRequest cfg fh).delays).get ⟨i, hh⟩
      = min (cfg.initialDelay * cfg.backoffMultiplier ^ i) cfg.maxDelay
    ∧ ((makeGrpcRequest cfg timeout fg).delays).get ⟨i, hg⟩
      = min (cfg.initialDelay * cfg.backoffMultiplier ^ i) cfg.maxDelay
    ∧ ((executeKernelCommand cfg timeout fk).delays).get ⟨i, hk⟩
      = min (cfg.initialDelay * cfg.backoffMultiplier ^ i) cfg.maxDelay := by
  have hgd := makeGrpcRequest_delays cfg timeout fg
  have hkd := executeKernelCommand_delays cfg timeout fk
  have hg2 : i < ((retryLoop fg (isRetryableGrpcError cfg) cfg).delays).length := by
    rw [← hgd]
    exact hg
  have hk2 : i < ((retryLoop fk kernelIsRetryableError cfg).delays).length := by
    rw [← hkd]
    exact hk
  refine ⟨retryLoop_delay fh isRetryableError cfg i hh, ?_, ?_⟩
  · rw [list_get_congr hgd i hg hg2]
    exact retryLoop_delay fg (isRetryableGrpcError cfg) cfg i hg2
  · rw [list_get_congr hkd i hk hk2]
    exact retryLoop_delay fk kernelIsRetryableError cfg i hk2

/-- Witness for C2: with `initialDelay = 100`, `multiplier = 2`,
`maxDelay = 1000` and three always-failing retryable attempts, the second
slept delay (position 1) is `min(100 * 2, 1000) = 200` on all transports. -/
theorem backoffDelayFormulaWitness :
    ((httpRequest ⟨3, 100, 2, 1000, [14, 13, 8]⟩
        (fun _ => (Except.error (networkError "boom" none) : Except HuefyError Nat))).delays).get
        ⟨1, by decide⟩ = min ((100 : ℚ) * 2 ^ 1) 1000
    ∧ ((makeGrpcRequest ⟨3, 100, 2, 1000, [14, 13, 8]⟩ 500
        (fun _ => (Except.error ⟨some 14, "u", none⟩ : Except GrpcRawError Nat))).delays).get
        ⟨1, by decide⟩ = min ((100 : ℚ) * 2 ^ 1) 1000
    ∧ ((executeKernelCommand ⟨3, 100, 2, 1000, [14, 13, 8]⟩ 500
        (fun _ => (Except.error ⟨none, "timeout hit"⟩ : Except KernelRawError Nat))).delays).get
        ⟨1, by decide⟩ = min ((100 : ℚ) * 2 ^ 1) 1000 :=
  backoffDelayFormula ⟨3, 100, 2, 1000, [14, 13, 8]⟩ 500
    (fun _ => Except.error (networkError "boom" none))
    (fun _ => Except.error ⟨some 14, "u", none⟩)
    (fun _ => Except.error ⟨none, "timeout hit"⟩) 1 (by decide) (by decide) (by decide)

/-- C3 counterexample: a RateLimit-kind error (a `RateLimitError`, statusCode
429) is in the claimed retryable set, yet the subprocess transport's retry
check (`KernelClient.isRetryableError`) refuses to retry it — its message
contains neither `'ECONNREFUSED'` nor `'timeout'` and it is not a
`NetworkError`/`TimeoutError` instance. -/
theorem rateLimitNotRetriedOnSubprocessCounterexample :
    claimedRetryableSet (rateLimitError "Rate limit exceeded" none) = true
    ∧ kind (rateLimitError "Rate limit exceeded" none) = Kind.rateLimit
    ∧ kernelIsRetryableError
        ⟨some (rateLimitError "Rate limit exceeded" none), "Rate limit exceeded"⟩ = false := by
  decide

/-- C3 (amended): the retryable set `{Network, Timeout} ∪ {RateLimit} ∪
{statusCode ≥ 500}` describes only the stream (HTTP) transport's
`isRetryableError`, which accepts Network, Timeout, RateLimit (429) and
Provider (500) errors and rejects the five 400-level kinds. The RPC
transport instead retries exactly the raw gRPC status codes in
`retryableStatusCodes` (default `{14, 13, 8}` — so a deadline-exceeded
status 4, of Timeout kind, is not retried), and the subprocess transport
retries only on `TimeoutError`/`NetworkError` instances or messages
containing `'ECONNREFUSED'`/`'timeout'` — in particular a RateLimit error is
retried by the stream transport but not by the subprocess transport. -/
theorem transportRetryPredicates :
    (∀ m c, isRetryableError (networkError m c) = true)
    ∧ (∀ t, isRetryableError (timeoutError t) = true)
    ∧ (∀ m d, isRetryableError (rateLimitError m d) = true)
    ∧ (∀ m d, isRetryableError (providerError m d) = true)
    ∧ (∀ m d, isRetryableError (authenticationError m d) = false)
    ∧ (∀ tk d, isRetryableError (templateNotFoundError tk d) = false)
    ∧ (∀ m d, isRetryableError (invalidTemplateDataError m d) = false)
    ∧ (∀ r d, isRetryableError (invalidRecipientError r d) = false)
    ∧ (∀ m d, isRetryableError (validationError m d) = false)
    ∧ (∀ c m d, isRetryableGrpcError DEFAULT_RETRY_CONFIG_GRPC ⟨some c, m, d⟩ = true
        ↔ (c = 14 ∨ c = 13 ∨ c = 8))
    ∧ (∀ m d, kernelIsRetryableError ⟨some (rateLimitError m d), m⟩ =
        (strIncludes m "ECONNREFUSED" || strIncludes m "timeout")) := by
  refine ⟨?_, ?_, ?_, ?_, ?_, ?_, ?_, ?_, ?_, ?_, ?_⟩
  · intro m c
    simp [isRetryableError, networkError]
  · intro t
    simp [isRetryableError, timeoutError]
  · intro m d
    simp [isRetryableError, rateLimitError]
  · intro m d
    simp [isRetryableError, providerError]
  · intro m d
    simp [isRetryableError, authenticationError]
  · intro tk d
    simp [isRetryableError, templateNotFoundError]
  · intro m d
    simp [isRetryableError, invalidTemplateDataError]
  · intro r d
    simp [isRetryableError, invalidRecipientError]
  · intro m d
    simp [isRetryableError, validationError]
  · intro c m d
    simp [isRetryableGrpcError, DEFAULT_RETRY_CONFIG_GRPC, List.contains, List.elem_iff]
  · intro m d
    cases h : strIncludes m "ECONNREFUSED" || strIncludes m "timeout" <;>
      simp [kernelIsRetryableError, kernelInstanceOf, rateLimitError, h]

/-- C4: with `maxAttempts > 1`, a first attempt failing with any of the five
non-retryable kinds (Authentication, TemplateNotFound, InvalidTemplateData,
InvalidRecipient, Validation — all as constructed by their error classes)
makes the HTTP client's `request` stop after exactly one attempt and fail
immediately with that classified error, sleeping no back-off delay. -/
theorem nonRetryableStopsAfterFirstAttempt {α : Type} (cfg : RetryConfig)
    (hmax : 1 < cfg.maxAttempts) (f : Nat → Except HuefyError α) (e : HuefyError)
    (hf : f 1 = Except.error e)
    (he : (∃ m d, e = authenticationError m d) ∨ (∃ tk d, e = templateNotFoundError tk d)
      ∨ (∃ m d, e = invalidTemplateDataError m d) ∨ (∃ r d, e = invalidRecipientError r d)
      ∨ (∃ m d, e = validationError m d)) :
    httpRequest cfg f = ⟨Except.error (some e), 1, []⟩ := by
  have hr : isRetryableError e = false := by
    rcases he with ⟨m, d, rfl⟩ | ⟨tk, d, rfl⟩ | ⟨m, d, rfl⟩ | ⟨r, d, rfl⟩ | ⟨m, d, rfl⟩ <;>
      simp [isRetryableError, authenticationError, templateNotFoundError,
        invalidTemplateDataError, invalidRecipientError, validationError]
  obtain ⟨r, hr2⟩ : ∃ r, cfg.maxAttempts.toNat = r + 2 :=
    ⟨cfg.maxAttempts.toNat - 2, by omega⟩
  unfold httpRequest retryLoop
  rw [hr2]
  rw [show r + 2 = (r + 1) + 1 from rfl, retryLoopAux_step, hf]
  simp [hr]

/-- Witness for C4: an authentication failure on attempt 1 with
`maxAttempts = 3` surfaces at once, after one attempt and no sleep. -/
theorem nonRetryableStopsAfterFirstAttemptWitness :
    httpRequest ⟨3, 1000, 2, 10000, [429, 500, 502, 503, 504]⟩
        (fun _ => (Except.error (authenticationError "bad key" none) : Except HuefyError Nat))
      = ⟨Except.error (some (authenticationError "bad key" none)), 1, []⟩ :=
  nonRetryableStopsAfterFirstAttempt ⟨3, 1000, 2, 10000, [429, 500, 502, 503, 504]⟩
    (by norm_num) (fun _ => Except.error (authenticationError "bad key" none))
    (authenticationError "bad key" none) rfl (Or.inl ⟨"bad key", none, rfl⟩)

/-- C5 counterexample: the RPC status PERMISSION_DENIED (7) is not in the
claim's fixed table, so the claim requires it to map to Network; the code's
`convertGrpcError` maps it to an `AuthenticationError` instead. -/
theorem permissionDeniedNotNetworkCounterexample :
    kind (convertGrpcError 30000 (some ⟨some 7, "denied", none⟩)) = Kind.authentication
    ∧ kind (convertGrpcError 30000 (some ⟨some 7, "denied", none⟩)) ≠ Kind.network := by
  decide

/-- C5 (amended): `convertGrpcError` realises the fixed table
unauthenticated(16)→Authentication, not-found(5)→TemplateNotFound,
resource-exhausted(8)→RateLimit, unavailable(14)→Provider,
deadline-exceeded(4)→Timeout, invalid-argument(3)→Validation,
internal(13)→Internal, **plus permission-denied(7)→Authentication**, and
every status code outside these eight maps to Network. -/
theorem grpcStatusCodeMapping (timeout : Int) (e : GrpcRawError) (c : Int)
    (hc : e.code = some c) :
    (c = 16 → kind (convertGrpcError timeout (some e)) = Kind.authentication)
    ∧ (c = 7 → kind (convertGrpcError timeout (some e)) = Kind.authentication)
    ∧ (c = 5 → kind (convertGrpcError timeout (some e)) = Kind.templateNotFound)
    ∧ (c = 8 → kind (convertGrpcError timeout (some e)) = Kind.rateLimit)
    ∧ (c = 14 → kind (convertGrpcError timeout (some e)) = Kind.provider)
    ∧ (c = 4 → kind (convertGrpcError timeout (some e)) = Kind.timeout)
    ∧ (c = 3 → kind (convertGrpcError timeout (some e)) = Kind.validation)
    ∧ (c = 13 → kind (convertGrpcError timeout (some e)) = Kind.internal)
    ∧ (¬(c = 3 ∨ c = 4 ∨ c = 5 ∨ c = 7 ∨ c = 8 ∨ c = 13 ∨ c = 14 ∨ c = 16) →
        kind (convertGrpcError timeout (some e)) = Kind.network) := by
  refine ⟨?_, ?_, ?_, ?_, ?_, ?_, ?_, ?_, ?_⟩ <;> intro h
  · subst h
    simp [convertGrpcError, hc, kind, kindOfCode, authenticationError]
  · subst h
    simp [convertGrpcError, hc, kind, kindOfCode, authenticationError]
  · subst h
    simp [convertGrpcError, hc, kind, kindOfCode, templateNotFoundError]
  · subst h
    simp [convertGrpcError, hc, kind, kindOfCode, rateLimitError]
  · subst h
    simp [convertGrpcError, hc, kind, kindOfCode, providerError]
  · subst h
    simp [convertGrpcError, hc, kind, kindOfCode, timeoutError]
  · subst h
    simp [convertGrpcError, hc, kind, kindOfCode, validationError]
  · subst h
    simp [convertGrpcError, hc, kind, kindOfCode, huefyErrorNew]
  · push_neg at h
    obtain ⟨h3, h4, h5, h7, h8, h13, h14, h16⟩ := h
    simp [convertGrpcError, hc, h3, h4, h5, h7, h8, h13, h14, h16,
      kind, kindOfCode, networkError]

/-- Witness for C5 (amended), at the concrete unlisted status code 9
(FAILED_PRECONDITION), which maps to Network. -/
theorem grpcStatusCodeMappingWitness :
    ((9 : Int) = 16 →
        kind (convertGrpcError 500 (some ⟨some 9, "m", none⟩)) = Kind.authentication)
    ∧ ((9 : Int) = 7 →
        kind (convertGrpcError 500 (some ⟨some 9, "m", none⟩)) = Kind.authentication)
    ∧ ((9 : Int) = 5 →
        kind (convertGrpcError 500 (some ⟨some 9, "m", none⟩)) = Kind.templateNotFound)
    ∧ ((9 : Int) = 8 →
        kind (convertGrpcError 500 (some ⟨some 9, "m", none⟩)) = Kind.rateLimit)
    ∧ ((9 : Int) = 14 →
        kind (convertGrpcError 500 (some ⟨some 9, "m", none⟩)) = Kind.provider)
    ∧ ((9 : Int) = 4 →
        kind (convertGrpcError 500 (some ⟨some 9, "m", none⟩)) = Kind.timeout)
    ∧ ((9 : Int) = 3 →
        kind (convertGrpcError 500 (some ⟨some 9, "m", none⟩)) = Kind.validation)
    ∧ ((9 : Int) = 13 →
        kind (convertGrpcError 500 (some ⟨some 9, "m", none⟩)) = Kind.internal)
    ∧ (¬((9 : Int) = 3 ∨ (9 : Int) = 4 ∨ (9 : Int) = 5 ∨ (9 : Int) = 7 ∨ (9 : Int) = 8
          ∨ (9 : Int) = 13 ∨ (9 : Int) = 14 ∨ (9 : Int) = 16) →
        kind (convertGrpcError 500 (some ⟨some 9, "m", none⟩)) = Kind.network) :=
  grpcStatusCodeMapping 500 ⟨some 9, "m", none⟩ 9 rfl

/-- C6: classification is total and never re-raises raw values — every raw
transport failure crossing the public boundary has been put through a total
classifier whose output is a `HuefyError` carrying one of the SDK's
enumerated codes (or is a previously classified `HuefyError` passed through
unchanged), and an unrecognized raw failure classifies to the Unknown-kind
catch-all (`UNEXPECTED_ERROR` on the stream transport, `KERNEL_ERROR` on the
subprocess transport) rather than propagating. -/
theorem classificationTotalAndClosed (timeout : Int) (e : JsError)
    (g : Option GrpcRawError) (k : KernelRawError) :
    (e.asHuefy = none → (classifyHttpFailure timeout e).code ∈ enumeratedCodes)
    ∧ (∀ h, e.asHuefy = some h → classifyHttpFailure timeout e = h
        ∨ (classifyHttpFailure timeout e).code ∈ enumeratedCodes)
    ∧ ((convertGrpcError timeout g).code ∈ enumeratedCodes)
    ∧ (k.asHuefy = none → (kernelConvertError timeout (some k)).code ∈ enumeratedCodes)
    ∧ (∀ h, k.asHuefy = some h → kernelConvertError timeout (some k) = h)
    ∧ ((kernelConvertError timeout none).code ∈ enumeratedCodes)
    ∧ (e.asHuefy = none → e.name ≠ "AbortError" → e.isTypeError = false →
        strIncludes e.message "fetch" = false →
        (classifyHttpFailure timeout e).code = "UNEXPECTED_ERROR"
        ∧ kind (classifyHttpFailure timeout e) = Kind.unknown)
    ∧ (k.asHuefy = none →
        strIncludes (if k.message = "" then "Unknown kernel error" else k.message) "API key" = false →
        strIncludes (if k.message = "" then "Unknown kernel error" else k.message) "template" = false →
        strIncludes (if k.message = "" then "Unknown kernel error" else k.message) "rate limit" = false →
        strIncludes (if k.message = "" then "Unknown kernel error" else k.message) "timeout" = false →
        strIncludes (if k.message = "" then "Unknown kernel error" else k.message) "network" = false →
        strIncludes (if k.message = "" then "Unknown kernel error" else k.message) "connection" = false →
        (kernelConvertError timeout (some k)).code = "KERNEL_ERROR"
        ∧ kind (kernelConvertError timeout (some k)) = Kind.unknown) := by
  refine ⟨?_, ?_, ?_, ?_, ?_, ?_, ?_, ?_⟩
  · intro hn
    unfold classifyHttpFailure
    split_ifs with h1 h2
    · simp [timeoutError, enumeratedCodes]
    · simp [networkError, enumeratedCodes]
    · simp [hn, huefyErrorNew, enumeratedCodes]
  · intro h hs
    unfold classifyHttpFailure
    split_ifs with h1 h2
    · right
      simp [timeoutError, enumeratedCodes]
    · right
      simp [networkError, enumeratedCodes]
    · left
      simp [hs]
  · cases g with
    | none => simp [convertGrpcError, huefyErrorNew, enumeratedCodes]
    | some ge =>
      simp only [convertGrpcError]
      split_ifs <;>
        simp [validationError, authenticationError, templateNotFoundError, rateLimitError,
          providerError, timeoutError, huefyErrorNew, networkError, enumeratedCodes]
  · intro hn
    simp only [kernelConvertError, hn]
    split_ifs <;>
      simp [authenticationError, templateNotFoundError, rateLimitError, timeoutError,
        networkError, huefyErrorNew, enumeratedCodes]
  · intro h hs
    simp [kernelConvertError, hs]
  · simp [kernelConvertError, huefyErrorNew, enumeratedCodes]
  · intro hn h1 h2 h3
    unfold classifyHttpFailure
    rw [if_neg h1]
    rw [if_neg (by simp [h2, h3])]
    simp [hn, huefyErrorNew, kind, kindOfCode]
  · intro hn m1 m2 m3 m4 m5 m6
    simp only [kernelConvertError, hn]
    simp [m1, m2, m3, m4, m5, m6, huefyErrorNew, kind, kindOfCode]

/-- C7: classifying the remote payload
`{error: "x", code: "TEMPLATE_NOT_FOUND", details: {template_key: "t"}}` at
any HTTP status yields kind TemplateNotFound, statusCode 404 and
`details.template_key = "t"`. -/
theorem templateNotFoundRoundTrip (status : Int) :
    kind (createErrorFromResponse
      ⟨"x", "TEMPLATE_NOT_FOUND", some (Details.obj [("template_key", "t")])⟩ status)
        = Kind.templateNotFound
    ∧ (createErrorFromResponse
      ⟨"x", "TEMPLATE_NOT_FOUND", some (Details.obj [("template_key", "t")])⟩ status).statusCode
        = some 404
    ∧ detailsGet (createErrorFromResponse
      ⟨"x", "TEMPLATE_NOT_FOUND", some (Details.obj [("template_key", "t")])⟩ status).details
        "template_key" = some "t" := by
  exact ⟨rfl, rfl, rfl⟩

/-- C8 counterexample: `createErrorFromResponse`'s default branch passes the
remote HTTP status through verbatim, so a 429 response with an unrecognized
code yields a non-RateLimit error carrying statusCode 429; and the
Internal-kind error built by `convertGrpcError` for gRPC INTERNAL (13)
carries no statusCode at all, not 500. -/
theorem statusCode429NonRateLimitCounterexample :
    (createErrorFromResponse ⟨"x", "SOME_UNRECOGNIZED_CODE", none⟩ 429).statusCode = some 429
    ∧ kind (createErrorFromResponse ⟨"x", "SOME_UNRECOGNIZED_CODE", none⟩ 429) ≠ Kind.rateLimit
    ∧ (convertGrpcError 30000 (some ⟨some 13, "broke", none⟩)).statusCode = none
    ∧ kind (convertGrpcError 30000 (some ⟨some 13, "broke", none⟩)) = Kind.internal := by
  decide

/-- C8 (amended): every *dedicated* error-class constructor fixes `statusCode`
per the mapping table — Authentication 401, TemplateNotFound 404,
InvalidTemplateData/InvalidRecipient/Validation 400, Provider 500,
RateLimit 429, Network/Timeout none. The generic base-`HuefyError` paths
(`createErrorFromResponse`'s default branch) are exempt: they carry the
remote status verbatim, so kind/status consistency holds only for errors
built by the dedicated constructors, and the RPC mapper's Internal error
carries no statusCode. -/
theorem constructorStatusCodeTable (m tk r : String) (t : Int) (d : Option Details)
    (c : Option String) :
    (authenticationError m d).statusCode = some 401
    ∧ kind (authenticationError m d) = Kind.authentication
    ∧ (templateNotFoundError tk d).statusCode = some 404
    ∧ kind (templateNotFoundError tk d) = Kind.templateNotFound
    ∧ (invalidTemplateDataError m d).statusCode = some 400
    ∧ kind (invalidTemplateDataError m d) = Kind.invalidTemplateData
    ∧ (invalidRecipientError r d).statusCode = some 400
    ∧ kind (invalidRecipientError r d) = Kind.invalidRecipient
    ∧ (validationError m d).statusCode = some 400
    ∧ kind (validationError m d) = Kind.validation
    ∧ (providerError m d).statusCode = some 500
    ∧ kind (providerError m d) = Kind.provider
    ∧ (rateLimitError m d).statusCode = some 429
    ∧ kind (rateLimitError m d) = Kind.rateLimit
    ∧ (networkError m c).statusCode = none
    ∧ kind (networkError m c) = Kind.network
    ∧ (timeoutError t).statusCode = none
    ∧ kind (timeoutError t) = Kind.timeout := by
  exact ⟨rfl, rfl, rfl, rfl, rfl, rfl, rfl, rfl, rfl, rfl, rfl, rfl, rfl, rfl, rfl, rfl,
    rfl, rfl⟩

/-- C9: when the child has not closed before `timeoutMs` elapses, the
`setTimeout` timer fires first: the transport `kill()`s the child and the
attempt rejects with a Timeout-kind error; whatever stdout the child had
accumulated is never read, so it can never surface as a (partial) success. -/
theorem subprocessTimeoutKillsAndDiscards (timeout : Int) (child : ChildBehavior)
    (h : timeout ≤ child.closeTime) :
    (spawnKernelProcess timeout child).killed = true
    ∧ (spawnKernelProcess timeout child).result =
        Except.error ⟨some (timeoutError timeout),
          "Request timed out after " ++ toString timeout ++ "ms"⟩
    ∧ kind (timeoutError timeout) = Kind.timeout := by
  have hlt : ¬ child.closeTime < timeout := not_lt.mpr h
  refine ⟨?_, ?_, rfl⟩ <;> simp [spawnKernelProcess, hlt]

/-- Witness for C9: a child that would have reported success at 100 ms under
a 50 ms timeout is killed and its output discarded. -/
theorem subprocessTimeoutKillsAndDiscardsWitness :
    (spawnKernelProcess 50 ⟨100, 0, some ⟨true, some "ok", none⟩, ""⟩).killed = true
    ∧ (spawnKernelProcess 50 ⟨100, 0, some ⟨true, some "ok", none⟩, ""⟩).result =
        Except.error ⟨some (timeoutError 50),
          "Request timed out after " ++ toString (50 : Int) ++ "ms"⟩
    ∧ kind (timeoutError 50) = Kind.timeout :=
  subprocessTimeoutKillsAndDiscards 50 ⟨100, 0, some ⟨true, some "ok", none⟩, ""⟩
    (by norm_num)

/-- C10: each client constructor reads its numeric config fields with
JavaScript `||`, so a `0` for `retryAttempts`, `retryDelay` or `timeout` is
indistinguishable from an absent field and the defaults (maxAttempts 3,
initialDelay 1000 ms, timeout 30000 ms) are substituted — retries cannot be
disabled by `retryAttempts: 0` — while a negative timeout (being truthy) is
kept and then rejected at construction with an `INVALID_CONFIG` error. -/
theorem zeroConfigSubstitutesDefaults (config : HuefyConfig) :
    (config.retryAttempts = some 0 →
      (httpRetryConfigOf config).maxAttempts = 3 ∧ (grpcRetryConfigOf config).maxAttempts = 3)
    ∧ (config.retryDelay = some 0 →
      (httpRetryConfigOf config).initialDelay = 1000
      ∧ (grpcRetryConfigOf config).initialDelay = 1000)
    ∧ (config.timeout = some 0 → effectiveTimeout config = 30000)
    ∧ (∀ st, httpClientInit config = Except.ok st →
        st.timeout = effectiveTimeout config ∧ st.retryConfig = httpRetryConfigOf config)
    ∧ (∀ b st, grpcClientInit config b = Except.ok st →
        st.timeout = effectiveTimeout config ∧ st.retryConfig = grpcRetryConfigOf config)
    ∧ (∀ p st, kernelClientInit config p = Except.ok st →
        st.timeout = effectiveTimeout config ∧ st.retryConfig = grpcRetryConfigOf config)
    ∧ (∀ t, config.timeout = some t → t < 0 →
        (∃ e1, httpClientInit config = Except.error e1 ∧ e1.code = "INVALID_CONFIG")
        ∧ (∀ b, ∃ e2, grpcClientInit config b = Except.error e2 ∧ e2.code = "INVALID_CONFIG")
        ∧ (∀ p, ∃ e3, kernelClientInit config p = Except.error e3 ∧ e3.code = "INVALID_CONFIG"))
    ∧ (apiKeyInvalid config = false → 0 ≤ effectiveTimeout config →
        httpClientInit config = Except.ok ⟨effectiveTimeout config, httpRetryConfigOf config⟩) := by
  refine ⟨?_, ?_, ?_, ?_, ?_, ?_, ?_, ?_⟩
  · intro h
    simp [httpRetryConfigOf, grpcRetryConfigOf, orDefaultInt, h,
      DEFAULT_RETRY_CONFIG_HTTP, DEFAULT_RETRY_CONFIG_GRPC]
  · intro h
    simp [httpRetryConfigOf, grpcRetryConfigOf, orDefaultInt, h,
      DEFAULT_RETRY_CONFIG_HTTP, DEFAULT_RETRY_CONFIG_GRPC]
  · intro h
    simp [effectiveTimeout, orDefaultInt, h]
  · intro st hst
    simp only [httpClientInit] at hst
    split_ifs at hst
    cases Except.ok.inj hst
    exact ⟨rfl, rfl⟩
  · intro b st hst
    simp only [grpcClientInit] at hst
    split_ifs at hst
    cases Except.ok.inj hst
    exact ⟨rfl, rfl⟩
  · intro p st hst
    simp only [kernelClientInit] at hst
    split_ifs at hst
    cases Except.ok.inj hst
    exact ⟨rfl, rfl⟩
  · intro t ht hneg
    have ht0 : t ≠ 0 := by omega
    have heff : effectiveTimeout config = t := by
      simp [effectiveTimeout, orDefaultInt, ht, ht0]
    refine ⟨?_, ?_, ?_⟩
    · cases hak : apiKeyInvalid config
      · refine ⟨huefyErrorNew "Timeout must be a positive number" "INVALID_CONFIG" none none,
          ?_, rfl⟩
        simp [httpClientInit, hak, heff, hneg]
      · refine ⟨huefyErrorNew "API key is required and must be a string" "INVALID_CONFIG"
          none none, ?_, rfl⟩
        simp [httpClientInit, hak]
    · intro b
      cases hak : apiKeyInvalid config
      · refine ⟨huefyErrorNew "Timeout must be a positive number" "INVALID_CONFIG" none none,
          ?_, rfl⟩
        simp [grpcClientInit, hak, heff, hneg]
      · refine ⟨huefyErrorNew "API key is required and must be a string" "INVALID_CONFIG"
          none none, ?_, rfl⟩
        simp [grpcClientInit, hak]
    · intro p
      cases hak : apiKeyInvalid config
      · refine ⟨huefyErrorNew "Timeout must be a positive number" "INVALID_CONFIG" none none,
          ?_, rfl⟩
        simp [kernelClientInit, hak, heff, hneg]
      · refine ⟨huefyErrorNew "API key is required and must be a string" "INVALID_CONFIG"
          none none, ?_, rfl⟩
        simp [kernelClientInit, hak]
  · intro hak hnn
    simp [httpClientInit, hak, not_lt.mpr hnn]

end Huefy
